import Mathlib

/-!
Verification development for `ERW1.py`, the single script of the
`enhanced-rock-weathering` repository.

The script is a linear pipeline: load CSV tables, initialize the external
PHREEQC engine (searching a fixed list of database paths), select the first
sample with complete major-element data, run the engine or fall back to a
hand-written synthetic series, analyze the results table, plot, and write a
text report.

The shallow embedding below models:
* rows of the majors table as `Sample` (the oxide columns the script reads,
  with `none` standing for a null/NaN cell);
* the results table as `DataFrame`, a list of named columns of `Option ℚ`
  cells (`none` standing for NaN); numeric values are modelled as exact
  rationals;
* external behavior (whether the data load raises, whether `IPhreeqc()`
  raises, which database paths load, whether `run_string` raises, the
  selected-output array, and whether matplotlib raises) as an `Env` record;
* the whole execution as `run : Env → List Sample → List Event`, a trace of
  step banners, file reads/writes, `exit(1)` calls and uncaught-exception
  crashes, following the script's control flow.
-/

/-- A row of the majors table, restricted to the columns `ERW1.py` reads:
`DDPD_ID` and the seven oxide weight-percent columns.  `none` models a
null/NaN cell (`pd.notna` false). -/
structure Sample where
  ddpd_id : ℚ
  sio2 : Option ℚ
  cao : Option ℚ
  mgo : Option ℚ
  na2o : Option ℚ
  k2o : Option ℚ
  fe2o3 : Option ℚ
  al2o3 : Option ℚ
deriving DecidableEq

/-- External behavior of one execution: everything the script observes from
outside its own logic. -/
structure Env where
  /-- the `pd.read_csv` of the majors table raises (outer `except` at line 56). -/
  loadFails : Bool
  /-- `phreeqc_mod.IPhreeqc()` raises (line 67, caught at line 110). -/
  initRaises : Bool
  /-- which filesystem paths `phreeqc.load_database` accepts (line 84). -/
  loadOk : String → Bool
  /-- the phreeqpy package-directory database loads (lines 93-99). -/
  packageLoadOk : Bool
  /-- `phreeqc.run_string` raises (line 256, caught at line 277). -/
  runRaises : Bool
  /-- `phreeqc.get_selected_output_array()` (line 259): first row is the
  header of column names, remaining rows are data cells. -/
  selectedOutput : List (List String)
  /-- matplotlib itself fails somewhere in the step-6 `try` block before
  `plt.savefig` (caught at line 529). -/
  vizRaises : Bool

/-- The seven database paths tried in order (lines 70-78 of `ERW1.py`). -/
def database_paths : List String :=
  ["C:\\Program Files\\USGS\\phreeqc-3.8.6-17100-x64\\database\\wateq4f.dat",
   "C:\\Program Files\\USGS\\phreeqc-3.7.3-15968-x64\\database\\wateq4f.dat",
   "C:\\Program Files (x86)\\USGS\\phreeqc-3.8.6-17100-x64\\database\\wateq4f.dat",
   "C:\\phreeqc\\database\\wateq4f.dat",
   "wateq4f.dat",
   "phreeqc.dat",
   "llnl.dat"]

/-- The `for db_path in database_paths` loop (lines 81-89): each path is
tried with `load_database`; a raise is caught and the loop continues; a
success sets `database_loaded = True` and `break`s.  The value is the list
of paths actually attempted, in order. -/
def attemptedPaths (loadOk : String → Bool) : List String → List String
  | [] => []
  | p :: ps => if loadOk p then [p] else p :: attemptedPaths loadOk ps

/-- `database_loaded` after the path loop: true iff some listed path loads. -/
def listDatabaseLoaded (env : Env) : Bool :=
  database_paths.any env.loadOk

/-- The package-database fallback (lines 92-101) is entered only when the
loop left `database_loaded` false, and only when `IPhreeqc()` did not raise
(a raise at line 67 jumps to the handler at line 110, skipping the loop). -/
def packageAttempted (env : Env) : Bool :=
  !env.initRaises && !listDatabaseLoaded env

/-- `database_loaded` after the fallback block (lines 92-101). -/
def database_loaded (env : Env) : Bool :=
  listDatabaseLoaded env || (packageAttempted env && env.packageLoadOk)

/-- `use_synthetic` (lines 103-112): set when `IPhreeqc()` raised, or when
no database (listed or package) could be loaded. -/
def use_synthetic (env : Env) : Bool :=
  env.initRaises || !database_loaded env

/-- `simulation_success` (lines 250-281): the engine path was taken,
`run_string` did not raise, and the selected output has more than one row. -/
def simulation_success (env : Env) : Bool :=
  !use_synthetic env && !env.runRaises && decide (1 < env.selectedOutput.length)

/-- A results table: named columns of cells, a cell being `some q` (a
number) or `none` (NaN).  Models the pandas `DataFrame` the script builds
either from the engine's selected output or from the synthetic series. -/
structure DataFrame where
  cols : List (String × List (Option ℚ))
deriving DecidableEq

/-- `df[name]`: the first column with the given name, or `none` when the
lookup would raise `KeyError`. -/
def DataFrame.getCol (df : DataFrame) (name : String) : Option (List (Option ℚ)) :=
  (df.cols.find? (fun c => c.1 == name)).map Prod.snd

/-- `name in df.columns`. -/
def DataFrame.hasCol (df : DataFrame) (name : String) : Bool :=
  (df.cols.map Prod.fst).contains name

/-- `len(df)`: number of rows (length of the first column; every table the
script builds has equal-length columns). -/
def DataFrame.nrows (df : DataFrame) : ℕ :=
  match df.cols with
  | [] => 0
  | c :: _ => c.2.length

/-- The numeric values of a column, with NaN cells read as `0` (used only to
state properties of the synthetic table, whose cells are all numeric). -/
def colVals (df : DataFrame) (name : String) : List ℚ :=
  ((df.getCol name).getD []).map (fun v => v.getD 0)

/-- One digit of a decimal string. -/
def charDigit (c : Char) : Option ℕ :=
  if c.isDigit then some (c.toNat - 48) else none

def digitsToNatAux : List Char → ℕ → Option ℕ
  | [], acc => some acc
  | c :: cs, acc =>
    match charDigit c with
    | some d => digitsToNatAux cs (10 * acc + d)
    | none => none

/-- A non-empty all-digit string as a natural number. -/
def digitsToNat : List Char → Option ℕ
  | [] => none
  | cs => digitsToNatAux cs 0

def parseUnsigned (cs : List Char) : Option ℚ :=
  match cs.span (fun c => c != '.') with
  | (intPart, []) => (digitsToNat intPart).map (fun n => (n : ℚ))
  | (intPart, _dot :: fracPart) =>
    match digitsToNat intPart, digitsToNat fracPart with
    | some n, some f => some ((n : ℚ) + (f : ℚ) / ((10 : ℚ) ^ fracPart.length))
    | _, _ => none

/-- Models `pd.to_numeric(cell, errors='coerce')` (lines 267-268) on one raw
engine cell: a decimal numeral (optionally signed, optionally with a
fractional part) parses to its exact rational value, anything else becomes
NaN (`none`).  The exact numeric grammar pandas accepts is wider (exponents,
whitespace); only parse-or-NaN matters to the script. -/
def toNumeric (s : String) : Option ℚ :=
  match s.toList with
  | '-' :: rest => (parseUnsigned rest).map (fun q => -q)
  | '+' :: rest => parseUnsigned rest
  | cs => parseUnsigned cs

/-- Columns of `pd.DataFrame(data, columns=columns)` followed by the
`pd.to_numeric` loop (lines 262-268): the j-th column holds the j-th cell of
each data row, coerced to numeric; a missing cell is NaN. -/
def columnsFrom (data : List (List String)) : List String → ℕ → List (String × List (Option ℚ))
  | [], _ => []
  | name :: rest, j =>
    (name, data.map (fun row => (row.get? j).bind toNumeric)) :: columnsFrom data rest (j + 1)

/-- The results table built from the engine's selected output (lines
259-268): header row gives the column names, remaining rows the data, every
cell coerced to numeric. -/
def engineResults (output : List (List String)) : DataFrame :=
  ⟨columnsFrom (output.drop 1) (output.headD []) 0⟩

/-- The `float(sample[col]) if pd.notna(sample[col]) else default` idiom
(lines 165-171 and 288-292). -/
def fallbackOxide (v : Option ℚ) (d : ℚ) : ℚ :=
  match v with
  | some x => x
  | none => d

/-- The seven oxide weight percents. -/
structure Oxides where
  sio2 : ℚ
  cao : ℚ
  mgo : ℚ
  na2o : ℚ
  k2o : ℚ
  fe2o3 : ℚ
  al2o3 : ℚ
deriving DecidableEq

/-- The `oxides` dict of `generate_advanced_phreeqc_input` (lines 164-172):
each value taken from the sample when present, else a fixed default. -/
def payloadOxides (s : Sample) : Oxides :=
  { sio2 := fallbackOxide s.sio2 60,
    cao := fallbackOxide s.cao 5,
    mgo := fallbackOxide s.mgo 3,
    na2o := fallbackOxide s.na2o 3,
    k2o := fallbackOxide s.k2o 2,
    fe2o3 := fallbackOxide s.fe2o3 5,
    al2o3 := fallbackOxide s.al2o3 15 }

/-- `mineral_moles` (lines 175-182): weight percent converted to moles. -/
def mineralMoles (o : Oxides) : List (String × ℚ) :=
  [("quartz", o.sio2 / 100 * 1000 / 60.08),
   ("anorthite", o.cao / 100 * 1000 / 278.2),
   ("forsterite", o.mgo / 100 * 1000 / 140.7),
   ("albite", o.na2o / 100 * 1000 / 208.2),
   ("kfeldspar", o.k2o / 100 * 1000 / 278.3),
   ("hematite", o.fe2o3 / 100 * 1000 / 159.7)]

def qcol (l : List ℚ) : List (Option ℚ) := l.map some

/-- The synthetic fallback table (lines 287-341) as a function of the four
oxide percents its columns actually use; every other series is a fixed
numeric literal.  (`sio2_pct` is also extracted by the source, lines
288-292, but never used in any column; see `syntheticResults`.) -/
def syntheticOf (cao_pct mgo_pct na2o_pct k2o_pct : ℚ) : DataFrame :=
  let pH_values : List ℚ := [5.6, 6.0, 6.4, 6.8, 7.2, 7.6, 8.0]
  let ca_max : ℚ := cao_pct * 0.08
  let ca_values : List ℚ := ([0, 0.1, 0.25, 0.45, 0.7, 0.9, 1.0] : List ℚ).map (fun x => ca_max * x)
  let mg_max : ℚ := mgo_pct * 0.06
  let mg_values : List ℚ := ([0, 0.08, 0.2, 0.4, 0.65, 0.85, 1.0] : List ℚ).map (fun x => mg_max * x)
  let na_max : ℚ := na2o_pct * 0.05
  let na_values : List ℚ := ([0, 0.15, 0.35, 0.55, 0.75, 0.9, 1.0] : List ℚ).map (fun x => na_max * x)
  let k_max : ℚ := k2o_pct * 0.03
  let k_values : List ℚ := ([0, 0.1, 0.3, 0.5, 0.7, 0.85, 1.0] : List ℚ).map (fun x => k_max * x)
  let si_values : List ℚ := [0.1, 0.3, 0.6, 1.0, 1.5, 2.1, 2.8]
  let hco3_values : List ℚ := [0.05, 0.3, 0.8, 1.5, 2.5, 3.8, 5.2]
  let co3_values : List ℚ := [0, 0.01, 0.03, 0.08, 0.15, 0.25, 0.4]
  let calcite_si : List ℚ := [-2.8, -2.1, -1.4, -0.7, 0.0, 0.6, 1.1]
  let dolomite_si : List ℚ := [-3.5, -2.7, -1.9, -1.1, -0.3, 0.4, 1.0]
  let gibbsite_si : List ℚ := [-1.5, -1.0, -0.5, 0.0, 0.4, 0.7, 1.0]
  let alkalinity : List ℚ := List.zipWith (fun h c => h + 2 * c) hco3_values co3_values
  ⟨[("pH", qcol pH_values),
    ("Ca+2", qcol (ca_values.map (fun x => x / 1000))),
    ("Mg+2", qcol (mg_values.map (fun x => x / 1000))),
    ("Na+", qcol (na_values.map (fun x => x / 1000))),
    ("K+", qcol (k_values.map (fun x => x / 1000))),
    ("SiO2", qcol (si_values.map (fun x => x / 1000))),
    ("HCO3-", qcol (hco3_values.map (fun x => x / 1000))),
    ("CO3-2", qcol (co3_values.map (fun x => x / 1000))),
    ("si_Calcite", qcol calcite_si),
    ("si_Dolomite", qcol dolomite_si),
    ("si_Gibbsite", qcol gibbsite_si),
    ("Alk", qcol (alkalinity.map (fun x => x / 1000)))]⟩

/-- The synthetic fallback table for the selected sample (lines 288-292
apply the default-or-value extraction to `CaO, MgO, SiO2, Na2O, K2O`). -/
def syntheticResults (s : Sample) : DataFrame :=
  let _sio2_pct := fallbackOxide s.sio2 60
  syntheticOf (fallbackOxide s.cao 5) (fallbackOxide s.mgo 3)
    (fallbackOxide s.na2o 3) (fallbackOxide s.k2o 2)

/-- `results_df` after step 4 (lines 250-343): the engine table when the
simulation succeeded, else the synthetic fallback table. -/
def resultsTable (env : Env) (sample : Sample) : DataFrame :=
  if simulation_success env then engineResults env.selectedOutput
  else syntheticResults sample

/-- NaN-propagating subtraction (any arithmetic on a NaN float is NaN). -/
def nanSub : Option ℚ → Option ℚ → Option ℚ
  | some a, some b => some (a - b)
  | _, _ => none

/-- NaN-propagating addition. -/
def nanAdd : Option ℚ → Option ℚ → Option ℚ
  | some a, some b => some (a + b)
  | _, _ => none

/-- NaN-propagating multiplication by a constant (`x * c`). -/
def nanScale (c : ℚ) : Option ℚ → Option ℚ
  | some a => some (a * c)
  | none => none

/-- The key performance indicators computed in step 5 (lines 349-382) that
later code reads.  Each value may be NaN (`none`); `minerals` is `some`
exactly when the names `final_calcite_si` / `final_dolomite_si` were bound
(the `'si_Calcite' in results_df.columns` block, lines 376-378). -/
structure Analysis where
  initial_pH : Option ℚ
  final_pH : Option ℚ
  pH_change : Option ℚ
  total_ca_release : Option ℚ
  total_mg_release : Option ℚ
  total_cation_release : Option ℚ
  co2_sequestration : Option ℚ
  alkalinity_generated : Option ℚ
  minerals : Option (Option ℚ × Option ℚ)
deriving DecidableEq

/-- Step 5, results analysis (lines 349-382).  This section has no
`try/except`: a column lookup on a name the table lacks raises `KeyError`
and an `iloc` on an empty column raises `IndexError`, terminating the
script; those uncaught errors are the `none` outcome.  The `HCO3-` and
`si_Calcite` blocks are guarded by column-membership tests in the source
(modelled by matching on `getCol`, which is `some` exactly when the name is
in the columns), but `results_df['si_Dolomite']` inside the `si_Calcite`
block is unguarded. -/
def step5 (df : DataFrame) : Option Analysis := do
  let pHcol ← df.getCol "pH"
  let initial_pH ← pHcol.head?
  let final_pH ← pHcol.getLast?
  let pH_change := nanSub final_pH initial_pH
  let caCol ← df.getCol "Ca+2"
  let caLast ← caCol.getLast?
  let total_ca_release := nanScale 1000 caLast
  let mgCol ← df.getCol "Mg+2"
  let mgLast ← mgCol.getLast?
  let total_mg_release := nanScale 1000 mgLast
  let total_cation_release := nanAdd total_ca_release total_mg_release
  let co2alk ←
    match df.getCol "HCO3-" with
    | some hcol => do
        let hLast ← hcol.getLast?
        let co2 := nanScale 44 (nanScale 1000 hLast)
        let alkCol := (df.getCol "Alk").getD hcol
        let aLast ← alkCol.getLast?
        pure (co2, nanScale 1000 aLast)
    | none => pure ((some 0 : Option ℚ), (some 0 : Option ℚ))
  let minerals ←
    match df.getCol "si_Calcite" with
    | some cCol => do
        let c ← cCol.getLast?
        let dCol ← df.getCol "si_Dolomite"
        let d ← dCol.getLast?
        pure (some (c, d) : Option (Option ℚ × Option ℚ))
    | none => pure (none : Option (Option ℚ × Option ℚ))
  pure { initial_pH := initial_pH,
         final_pH := final_pH,
         pH_change := pH_change,
         total_ca_release := total_ca_release,
         total_mg_release := total_mg_release,
         total_cation_release := total_cation_release,
         co2_sequestration := co2alk.1,
         alkalinity_generated := co2alk.2,
         minerals := minerals }

/-- Whether the step-6 `try` block reaches `plt.savefig` (lines 390-524).
All plotting errors are caught at line 529, so failure only means the PNG is
not written.  The block dereferences `results_df['pH']` unguarded (line
409), and when both cation columns exist it reads `cao_pct`/`mgo_pct`
(line 496), names bound only when the synthetic branch ran, i.e. when the
simulation did not succeed.  `env.vizRaises` abstracts matplotlib-internal
failures. -/
def vizSaves (env : Env) (df : DataFrame) : Bool :=
  !env.vizRaises && df.hasCol "pH" &&
    (!(df.hasCol "Ca+2" && df.hasCol "Mg+2") || !simulation_success env)

/-- The report f-string (lines 538-605) mentions `final_calcite_si` and
`final_dolomite_si` unconditionally (lines 575-576); building it raises
`NameError` unless step 5 bound them.  Only then is the file written. -/
def reportOk (a : Analysis) : Bool :=
  a.minerals.isSome

/-- The files the script touches. -/
inductive FileName
  | majorsFile
  | mineralogyFile
  | traceFile
  | pngFile
  | reportFile
deriving DecidableEq

/-- Observable events of one execution, in order: the spec's step banners
(`stepLoad` = load CSVs, `stepInit` = locate/initialize the solver,
`stepSelect` = sample selection, `buildQuery` = the
`generate_advanced_phreeqc_input` call, `runOrFallback` = run the engine or
generate the synthetic series, `stepAnalyze`, `stepViz`, `stepReport`,
`stepSummary`), file reads and writes, the two `exit(1)` calls
(`exitLoad` line 58, `exitNoSample` line 125), and `crash` for an uncaught
exception (which also terminates the process with a nonzero status). -/
inductive Event
  | stepLoad
  | stepInit
  | stepSelect
  | buildQuery
  | runOrFallback
  | stepAnalyze
  | stepViz
  | stepReport
  | stepSummary
  | fileRead (f : FileName)
  | fileWrite (f : FileName)
  | exitLoad
  | exitNoSample
  | crash
deriving DecidableEq

/-- `complete_samples` (line 121): rows where the six columns of the
`dropna` subset (`SiO2_pct, CaO_pct, MgO_pct, Na2O_pct, K2O_pct, Fe2O3_pct`;
note `Al2O3_pct` is not in the subset) are all non-null. -/
def isComplete (s : Sample) : Bool :=
  s.sio2.isSome && s.cao.isSome && s.mgo.isSome && s.na2o.isSome && s.k2o.isSome && s.fe2o3.isSome

def completeSamples (ms : List Sample) : List Sample :=
  ms.filter isComplete

/-- `sample = complete_samples.iloc[0]` (line 128). -/
def selectedSample (ms : List Sample) : Option Sample :=
  (completeSamples ms).head?

/-- The execution trace of `ERW1.py` given external behavior `env` and
majors table `ms`.  Follows the script top to bottom:
step 1 reads the majors file (its failure exits with status 1; the
mineralogy and trace reads are attempted next, their own failures caught);
step 2 initializes the engine; step 3 selects the first complete sample
(none exits with status 1); step 4 builds the engine input only on the
engine path, then runs the engine or generates the synthetic series;
step 5 is unguarded analysis (`crash` on a missing column); step 6 plots
inside `try/except`, writing the PNG only when `savefig` is reached;
step 7 builds and writes the report (`crash` on an unbound name);
step 8 prints the summary. -/
def run (env : Env) (ms : List Sample) : List Event :=
  Event.stepLoad :: Event.fileRead FileName.majorsFile ::
  (if env.loadFails then [Event.exitLoad]
   else
    Event.fileRead FileName.mineralogyFile :: Event.fileRead FileName.traceFile ::
    Event.stepInit :: Event.stepSelect ::
    (match completeSamples ms with
     | [] => [Event.exitNoSample]
     | sample :: _ =>
       (if use_synthetic env then [] else [Event.buildQuery]) ++
       Event.runOrFallback :: Event.stepAnalyze ::
       (match step5 (resultsTable env sample) with
        | none => [Event.crash]
        | some a =>
          Event.stepViz ::
          ((if vizSaves env (resultsTable env sample) then [Event.fileWrite FileName.pngFile] else []) ++
           Event.stepReport ::
           (if reportOk a then [Event.fileWrite FileName.reportFile, Event.stepSummary]
            else [Event.crash])))))

/-- Events common to every execution up to the majors read. -/
def tracePrefixLoad : List Event := [Event.stepLoad, Event.fileRead FileName.majorsFile]

/-- Events common to every execution that passes the data load, up to and
including the step-3 banner. -/
def tracePrefixSelect : List Event :=
  tracePrefixLoad ++
    [Event.fileRead FileName.mineralogyFile, Event.fileRead FileName.traceFile,
     Event.stepInit, Event.stepSelect]

/-- All possible traces of an execution on the synthetic path
(`use_synthetic` true, so no engine input is built). -/
def synTraces : List (List Event) :=
  [tracePrefixLoad ++ [Event.exitLoad],
   tracePrefixSelect ++ [Event.exitNoSample],
   tracePrefixSelect ++ [Event.runOrFallback, Event.stepAnalyze, Event.crash],
   tracePrefixSelect ++ [Event.runOrFallback, Event.stepAnalyze, Event.stepViz,
     Event.stepReport, Event.crash],
   tracePrefixSelect ++ [Event.runOrFallback, Event.stepAnalyze, Event.stepViz,
     Event.fileWrite FileName.pngFile, Event.stepReport, Event.crash],
   tracePrefixSelect ++ [Event.runOrFallback, Event.stepAnalyze, Event.stepViz,
     Event.stepReport, Event.fileWrite FileName.reportFile, Event.stepSummary],
   tracePrefixSelect ++ [Event.runOrFallback, Event.stepAnalyze, Event.stepViz,
     Event.fileWrite FileName.pngFile, Event.stepReport, Event.fileWrite FileName.reportFile,
     Event.stepSummary]]

/-- All possible traces of an execution on the engine path
(`use_synthetic` false, so `generate_advanced_phreeqc_input` is called). -/
def engTraces : List (List Event) :=
  [tracePrefixLoad ++ [Event.exitLoad],
   tracePrefixSelect ++ [Event.exitNoSample],
   tracePrefixSelect ++ [Event.buildQuery, Event.runOrFallback, Event.stepAnalyze, Event.crash],
   tracePrefixSelect ++ [Event.buildQuery, Event.runOrFallback, Event.stepAnalyze, Event.stepViz,
     Event.stepReport, Event.crash],
   tracePrefixSelect ++ [Event.buildQuery, Event.runOrFallback, Event.stepAnalyze, Event.stepViz,
     Event.fileWrite FileName.pngFile, Event.stepReport, Event.crash],
   tracePrefixSelect ++ [Event.buildQuery, Event.runOrFallback, Event.stepAnalyze, Event.stepViz,
     Event.stepReport, Event.fileWrite FileName.reportFile, Event.stepSummary],
   tracePrefixSelect ++ [Event.buildQuery, Event.runOrFallback, Event.stepAnalyze, Event.stepViz,
     Event.fileWrite FileName.pngFile, Event.stepReport, Event.fileWrite FileName.reportFile,
     Event.stepSummary]]

/-- The seven steps named by the spec's pipeline sentence. -/
def isClaimStep : Event → Bool
  | Event.stepLoad => true
  | Event.stepInit => true
  | Event.buildQuery => true
  | Event.runOrFallback => true
  | Event.stepAnalyze => true
  | Event.stepViz => true
  | Event.stepReport => true
  | _ => false

/-- The spec's seven pipeline steps in their claimed order. -/
def canonicalSteps : List Event :=
  [Event.stepLoad, Event.stepInit, Event.buildQuery, Event.runOrFallback,
   Event.stepAnalyze, Event.stepViz, Event.stepReport]

/-- The steps actually executed by a completing run on the synthetic path:
the query-building step is skipped. -/
def canonicalFallbackSteps : List Event :=
  [Event.stepLoad, Event.stepInit, Event.runOrFallback,
   Event.stepAnalyze, Event.stepViz, Event.stepReport]

/-- A sample with every oxide present (CaO 10 wt%). -/
def sampleCaA : Sample := ⟨1, some 60, some 10, some 4, some 3, some 2, some 5, some 15⟩

/-- As `sampleCaA` but with CaO 20 wt%. -/
def sampleCaB : Sample := ⟨1, some 60, some 20, some 4, some 3, some 2, some 5, some 15⟩

/-- Agrees with `sampleCaA` on CaO, MgO, Na2O, K2O but differs on SiO2,
Fe2O3, Al2O3 and the id. -/
def sampleSio2Diff : Sample := ⟨2, some 45, some 10, some 4, some 3, some 2, none, none⟩

/-- A row with incomplete major-element data. -/
def sampleIncomplete : Sample := ⟨3, none, some 1, none, none, none, none, some 2⟩

/-- A one-row majors table whose row is complete. -/
def msOne : List Sample := [sampleCaA]

/-- Environment where `IPhreeqc()` itself raises. -/
def envSynthetic : Env := ⟨false, true, fun _ => false, false, false, [], false⟩

/-- Environment where the engine initializes but no database loads. -/
def envNoDb : Env := ⟨false, false, fun _ => false, false, false, [], false⟩

/-- Environment where the engine runs and returns a selected output with two
data rows whose header has none of the column names step 5 dereferences. -/
def envEngineBadCols : Env := ⟨false, false, fun _ => true, false, false, [["c"], ["1"], ["2"]], false⟩

/-- Environment where exactly the bare `wateq4f.dat` path (fifth in the
list) loads. -/
def envPartialDb : Env := ⟨false, false, fun s => s == "wateq4f.dat", false, false, [], false⟩

/-! ## Helper lemmas -/

theorem fallbackOxide_eq_getD (v : Option ℚ) (d : ℚ) : fallbackOxide v d = v.getD d := by
  cases v <;> rfl

theorem filter_head_eq_find {α : Type} (p : α → Bool) :
    ∀ l : List α, (l.filter p).head? = l.find? p := by
  intro l
  induction l with
  | nil => rfl
  | cons a t ih =>
    by_cases h : p a = true
    · simp [List.filter_cons, List.find?_cons, h]
    · simp only [List.filter_cons, List.find?_cons, h]
      simp [h, ih]

theorem attemptedPaths_eq_take (f : String → Bool) :
    ∀ l : List String, ∃ n, attemptedPaths f l = l.take n := by
  intro l
  induction l with
  | nil => exact ⟨0, rfl⟩
  | cons p ps ih =>
    by_cases h : f p = true
    · exact ⟨1, by simp [attemptedPaths, h]⟩
    · obtain ⟨n, hn⟩ := ih
      exact ⟨n + 1, by simp [attemptedPaths, h, hn]⟩

theorem attemptedPaths_dropLast_fails (f : String → Bool) :
    ∀ l : List String, ∀ p ∈ (attemptedPaths f l).dropLast, f p = false := by
  intro l
  induction l with
  | nil => intro p hp; simp [attemptedPaths] at hp
  | cons q ps ih =>
    intro p hp
    by_cases h : f q = true
    · simp [attemptedPaths, h] at hp
    · rw [attemptedPaths, if_neg h] at hp
      rcases e : attemptedPaths f ps with _ | ⟨r, rs⟩
      · rw [e] at hp
        simp at hp
      · rw [e, List.dropLast_cons₂, List.mem_cons] at hp
        rcases hp with rfl | hp
        · exact Bool.eq_false_iff.mpr h
        · exact ih p (by rw [e]; exact hp)

theorem attemptedPaths_finds_success (f : String → Bool) :
    ∀ l : List String, (∃ p ∈ l, f p = true) →
      ∃ q ∈ attemptedPaths f l, f q = true := by
  intro l
  induction l with
  | nil => intro h; simp at h
  | cons q ps ih =>
    intro h
    by_cases hq : f q = true
    · exact ⟨q, by simp [attemptedPaths, hq], hq⟩
    · obtain ⟨p, hp, hfp⟩ := h
      rcases List.mem_cons.mp hp with rfl | hp
      · exact absurd hfp hq
      · obtain ⟨r, hr, hfr⟩ := ih ⟨p, hp, hfp⟩
        exact ⟨r, by simp [attemptedPaths, hq, hr], hfr⟩

theorem columnsFrom_snd (data : List (List String)) :
    ∀ (names : List String) (j : ℕ) (pr : String × List (Option ℚ)),
      pr ∈ columnsFrom data names j →
      ∃ jj, pr.2 = data.map (fun row => (row.get? jj).bind toNumeric) := by
  intro names
  induction names with
  | nil => intro j pr h; simp [columnsFrom] at h
  | cons n rest ih =>
    intro j pr h
    rw [columnsFrom, List.mem_cons] at h
    rcases h with rfl | h
    · exact ⟨j, rfl⟩
    · exact ih (j + 1) pr h

theorem step5_syntheticOf (ca mg na k : ℚ) :
    step5 (syntheticOf ca mg na k) = some
      { initial_pH := some 5.6, final_pH := some 8.0,
        pH_change := some (8.0 - 5.6),
        total_ca_release := some (ca * 0.08 * 1.0 / 1000 * 1000),
        total_mg_release := some (mg * 0.06 * 1.0 / 1000 * 1000),
        total_cation_release :=
          some (ca * 0.08 * 1.0 / 1000 * 1000 + mg * 0.06 * 1.0 / 1000 * 1000),
        co2_sequestration := some (5.2 / 1000 * 1000 * 44),
        alkalinity_generated := some ((5.2 + 2 * 0.4) / 1000 * 1000),
        minerals := some (some 1.1, some 1.0) } := rfl

theorem chain_mul_div (a : ℚ) (ha : 0 ≤ a) (l : List ℚ)
    (hl : List.Chain' (fun x y : ℚ => x ≤ y) l) :
    List.Chain' (fun x y : ℚ => x ≤ y)
      ((l.map (fun x => a * x)).map (fun x => x / 1000)) := by
  rw [List.map_map]
  refine List.chain'_map_of_chain' _ ?_ hl
  intro x y hxy
  have hm := mul_le_mul_of_nonneg_left hxy ha
  simp only [Function.comp]
  linarith

theorem run_shape_syn (env : Env) (ms : List Sample) (h : use_synthetic env = true) :
    run env ms ∈ synTraces := by
  unfold run
  rw [h]
  split
  · decide
  · split
    · decide
    · split
      · split
        · decide
        · split <;> split <;> decide
      · simp at *

theorem run_shape_eng (env : Env) (ms : List Sample) (h : use_synthetic env = false) :
    run env ms ∈ engTraces := by
  unfold run
  rw [h]
  split
  · decide
  · split
    · decide
    · split
      · simp at *
      · split
        · decide
        · split <;> split <;> decide

theorem run_shape (env : Env) (ms : List Sample) : run env ms ∈ synTraces ++ engTraces := by
  cases hu : use_synthetic env
  · exact List.mem_append.mpr (Or.inr (run_shape_eng env ms hu))
  · exact List.mem_append.mpr (Or.inl (run_shape_syn env ms hu))

/-! ## Claims -/

/-- C1: whenever the external engine is unavailable — `IPhreeqc()` raises,
no thermodynamic database can be loaded, `run_string` raises, or the
selected output has at most one row — `results_df` is exactly the synthetic
fallback table for the selected sample, which is non-empty, so downstream
analysis, plotting and reporting operate on a non-empty results table. -/
theorem c1_engine_unavailable_fallback (env : Env) (sample : Sample)
    (h : env.initRaises = true ∨ database_loaded env = false ∨ env.runRaises = true ∨
      env.selectedOutput.length ≤ 1) :
    resultsTable env sample = syntheticResults sample ∧
      0 < (resultsTable env sample).nrows := by
  have hs : simulation_success env = false := by
    rcases h with h | h | h | h
    · simp [simulation_success, use_synthetic, h]
    · simp [simulation_success, use_synthetic, h]
    · simp [simulation_success, h]
    · simp [simulation_success, Nat.not_lt.mpr h]
  have hres : resultsTable env sample = syntheticResults sample := by
    rw [resultsTable, if_neg]
    simp [hs]
  refine ⟨hres, ?_⟩
  rw [hres]
  have h7 : (syntheticResults sample).nrows = 7 := rfl
  omega

/-- C1 witness: a concrete environment where initialization raises. -/
theorem c1_engine_unavailable_fallback_witness :
    resultsTable envSynthetic sampleCaA = syntheticResults sampleCaA ∧
      0 < (resultsTable envSynthetic sampleCaA).nrows :=
  c1_engine_unavailable_fallback envSynthetic sampleCaA (Or.inl rfl)

/-- C2 counterexample: an execution whose data load succeeds and whose
majors table has a complete sample, yet the report file is never written:
the simulation succeeds but its output lacks the `pH` column, and the
unguarded step-5 analysis crashes before step 7. -/
theorem c2_report_counterexample :
    envEngineBadCols.loadFails = false ∧ completeSamples msOne ≠ [] ∧
      Event.fileWrite FileName.reportFile ∉ run envEngineBadCols msOne := by
  refine ⟨rfl, by decide, by decide⟩

/-- C2 amended: engine-initialization and simulation failures are indeed
caught and defaulted, and every run that takes the synthetic fallback
reaches step 7 and writes the report; but the step-5 analysis and the
report are unguarded, so an engine-path results table lacking the columns
they read crashes the run before the report (see the counterexample). -/
theorem c2_fallback_report_written (env : Env) (ms : List Sample) (sample : Sample)
    (rest : List Sample) (h1 : env.loadFails = false)
    (h2 : completeSamples ms = sample :: rest) (h3 : simulation_success env = false) :
    Event.stepReport ∈ run env ms ∧ Event.fileWrite FileName.reportFile ∈ run env ms := by
  have hres : resultsTable env sample = syntheticResults sample := by
    rw [resultsTable, if_neg]
    simp [h3]
  have hstep : step5 (resultsTable env sample) = some
      { initial_pH := some 5.6, final_pH := some 8.0,
        pH_change := some (8.0 - 5.6),
        total_ca_release := some (fallbackOxide sample.cao 5 * 0.08 * 1.0 / 1000 * 1000),
        total_mg_release := some (fallbackOxide sample.mgo 3 * 0.06 * 1.0 / 1000 * 1000),
        total_cation_release :=
          some (fallbackOxide sample.cao 5 * 0.08 * 1.0 / 1000 * 1000 +
            fallbackOxide sample.mgo 3 * 0.06 * 1.0 / 1000 * 1000),
        co2_sequestration := some (5.2 / 1000 * 1000 * 44),
        alkalinity_generated := some ((5.2 + 2 * 0.4) / 1000 * 1000),
        minerals := some (some 1.1, some 1.0) } := by
    rw [hres]
    exact step5_syntheticOf _ _ _ _
  simp only [run, h1, Bool.false_eq_true, if_false, h2, hstep, reportOk]
  by_cases hu : use_synthetic env = true <;>
    by_cases hv : vizSaves env (resultsTable env sample) = true <;>
      simp [hu, hv, List.mem_append]

/-- C2 amended witness: a concrete fallback run writes the report. -/
theorem c2_fallback_report_written_witness :
    Event.stepReport ∈ run envSynthetic msOne ∧
      Event.fileWrite FileName.reportFile ∈ run envSynthetic msOne :=
  c2_fallback_report_written envSynthetic msOne sampleCaA [] rfl (by decide) rfl

/-- C3 counterexample: two input samples differing only in CaO produce
different synthetic fallback tables, so the fallback output is not static. -/
theorem c3_fallback_not_static_counterexample :
    ¬ syntheticResults sampleCaA = syntheticResults sampleCaB := by
  intro h
  have h2 : colVals (syntheticResults sampleCaA) "Ca+2" =
      colVals (syntheticResults sampleCaB) "Ca+2" := by rw [h]
  have ha : colVals (syntheticResults sampleCaA) "Ca+2" =
      (([0, 0.1, 0.25, 0.45, 0.7, 0.9, 1.0] : List ℚ).map
        (fun x => (10 : ℚ) * 0.08 * x)).map (fun x => x / 1000) := rfl
  have hb : colVals (syntheticResults sampleCaB) "Ca+2" =
      (([0, 0.1, 0.25, 0.45, 0.7, 0.9, 1.0] : List ℚ).map
        (fun x => (20 : ℚ) * 0.08 * x)).map (fun x => x / 1000) := rfl
  rw [ha, hb] at h2
  simp only [List.map_cons, List.map_nil, List.cons.injEq] at h2
  obtain ⟨-, h21, -⟩ := h2
  norm_num at h21

/-- C3 amended: the synthetic fallback is not static; it depends on the
selected sample's CaO, MgO, Na2O and K2O percentages (after defaulting) and
on nothing else — two samples agreeing on those four values (SiO2 included
among the ignored ones, despite being extracted) yield identical tables. -/
theorem c3_fallback_depends_only_on_cation_oxides (s1 s2 : Sample)
    (h1 : fallbackOxide s1.cao 5 = fallbackOxide s2.cao 5)
    (h2 : fallbackOxide s1.mgo 3 = fallbackOxide s2.mgo 3)
    (h3 : fallbackOxide s1.na2o 3 = fallbackOxide s2.na2o 3)
    (h4 : fallbackOxide s1.k2o 2 = fallbackOxide s2.k2o 2) :
    syntheticResults s1 = syntheticResults s2 := by
  unfold syntheticResults
  rw [h1, h2, h3, h4]

/-- C3 amended witness: samples agreeing on the four cation oxides but
differing in SiO2, Fe2O3, Al2O3 and id give the same fallback table. -/
theorem c3_fallback_depends_only_on_cation_oxides_witness :
    syntheticResults sampleCaA = syntheticResults sampleSio2Diff :=
  c3_fallback_depends_only_on_cation_oxides sampleCaA sampleSio2Diff rfl rfl rfl rfl

/-- C4: the attempted database paths form a prefix of the fixed list (so
each of the seven paths is attempted at most once and in list order), every
attempt before the last fails (attempts stop at the first success), a
successful path in the list is indeed reached, and the package-database
fallback is attempted exactly when initialization did not raise and all
seven listed paths fail. -/
theorem c4_database_attempts (env : Env) :
    (∃ n, attemptedPaths env.loadOk database_paths = database_paths.take n) ∧
    (attemptedPaths env.loadOk database_paths).Nodup ∧
    (∀ p ∈ (attemptedPaths env.loadOk database_paths).dropLast, env.loadOk p = false) ∧
    ((∃ p ∈ database_paths, env.loadOk p = true) →
      ∃ q ∈ attemptedPaths env.loadOk database_paths, env.loadOk q = true) ∧
    (packageAttempted env = true ↔
      env.initRaises = false ∧ ∀ p ∈ database_paths, env.loadOk p = false) := by
  refine ⟨attemptedPaths_eq_take _ _, ?_, attemptedPaths_dropLast_fails _ _,
    attemptedPaths_finds_success _ _, ?_⟩
  · obtain ⟨n, hn⟩ := attemptedPaths_eq_take env.loadOk database_paths
    rw [hn]
    exact (List.take_sublist n _).nodup (by decide)
  · simp [packageAttempted, listDatabaseLoaded, List.any_eq_true]

/-- C4 witness: when only the bare `wateq4f.dat` entry loads, the first
path is among the failed earlier attempts. -/
theorem c4_database_attempts_witness :
    envPartialDb.loadOk
      "C:\\Program Files\\USGS\\phreeqc-3.8.6-17100-x64\\database\\wateq4f.dat" = false :=
  (c4_database_attempts envPartialDb).2.2.1 _ (by decide)

/-- C5 counterexample: a run that completes end to end (summary reached,
report written) on the synthetic path never executes the
build-a-parameterized-query step, so that step does not run exactly once
per execution. -/
theorem c5_build_step_skipped_counterexample :
    Event.stepSummary ∈ run envNoDb msOne ∧
      Event.fileWrite FileName.reportFile ∈ run envNoDb msOne ∧
      (run envNoDb msOne).count Event.buildQuery = 0 := by decide

/-- C5 amended: in every execution the spec's seven steps occur at most
once each and in the claimed fixed order (no feedback loops); in an
execution that completes, each step runs exactly once except
build-a-parameterized-query, which is skipped exactly when the synthetic
path was chosen at initialization time. -/
theorem c5_steps_order_amended (env : Env) (ms : List Sample) :
    List.Sublist ((run env ms).filter isClaimStep) canonicalSteps ∧
    (Event.stepSummary ∈ run env ms →
      (run env ms).filter isClaimStep =
        if use_synthetic env = true then canonicalFallbackSteps else canonicalSteps) := by
  constructor
  · have h := run_shape env ms
    generalize hg : run env ms = t at h ⊢
    fin_cases h <;> decide
  · intro hs
    cases hu : use_synthetic env
    · rw [if_neg (by simp [hu])]
      have h := run_shape_eng env ms hu
      generalize hg : run env ms = t at h hs ⊢
      fin_cases h <;> revert hs <;> decide
    · rw [if_pos rfl]
      have h := run_shape_syn env ms hu
      generalize hg : run env ms = t at h hs ⊢
      fin_cases h <;> revert hs <;> decide

/-- C5 amended witness: the completing fallback run executes exactly the
six steps other than query building, in order. -/
theorem c5_steps_order_amended_witness :
    (run envNoDb msOne).filter isClaimStep =
      if use_synthetic envNoDb = true then canonicalFallbackSteps else canonicalSteps :=
  (c5_steps_order_amended envNoDb msOne).2 (by decide)

/-- C6: every value used downstream is numeric or defaulted.  The engine
payload's seven oxides are the sample's values with the fixed defaults
(SiO2 60, CaO 5, MgO 3, Na2O 3, K2O 2, Fe2O3 5, Al2O3 15) substituted for
missing cells; the synthetic series applies the same defaulting to the
oxides it uses; and every numeric cell of the table built from the engine's
output is the coercion of some raw cell of that output (non-parsable cells
having become NaN). -/
theorem c6_numeric_or_defaulted :
    (∀ s : Sample, payloadOxides s =
      { sio2 := s.sio2.getD 60, cao := s.cao.getD 5, mgo := s.mgo.getD 3,
        na2o := s.na2o.getD 3, k2o := s.k2o.getD 2, fe2o3 := s.fe2o3.getD 5,
        al2o3 := s.al2o3.getD 15 }) ∧
    (∀ s : Sample, syntheticResults s =
      syntheticOf (s.cao.getD 5) (s.mgo.getD 3) (s.na2o.getD 3) (s.k2o.getD 2)) ∧
    (∀ (output : List (List String)) (name : String) (col : List (Option ℚ)),
      (engineResults output).getCol name = some col →
      ∀ cell ∈ col, cell = none ∨ ∃ row ∈ output.drop 1, ∃ raw ∈ row, toNumeric raw = cell) := by
  refine ⟨?_, ?_, ?_⟩
  · intro s
    simp [payloadOxides, fallbackOxide_eq_getD]
  · intro s
    simp [syntheticResults, fallbackOxide_eq_getD]
  · intro output name col hcol cell hcell
    rw [DataFrame.getCol] at hcol
    obtain ⟨pr, hfind, hsnd⟩ := Option.map_eq_some'.mp hcol
    have hmem := List.mem_of_find?_eq_some hfind
    obtain ⟨jj, hjj⟩ := columnsFrom_snd _ _ _ _ hmem
    rw [← hsnd, hjj] at hcell
    obtain ⟨row, hrow, hcellEq⟩ := List.mem_map.mp hcell
    rcases hg : row.get? jj with _ | raw
    · left
      rw [← hcellEq, hg]
      rfl
    · right
      exact ⟨row, hrow, raw, List.get?_mem hg, by rw [← hcellEq, hg]; rfl⟩

/-- C6 witness: on a concrete engine output the single numeric cell comes
from parsing the raw cell "1". -/
theorem c6_numeric_or_defaulted_witness :
    some (1 : ℚ) = none ∨
      ∃ row ∈ ([["c"], ["1"]] : List (List String)).drop 1,
        ∃ raw ∈ row, toNumeric raw = some (1 : ℚ) :=
  c6_numeric_or_defaulted.2.2 [["c"], ["1"]] "c" [some 1] (by decide) (some 1) (by decide)

/-- C7: the lifecycle is read once / transform once / write once.  In every
execution each of the three input files is read at most once, each of the
two output files is written at most once, and no input file is ever
written. -/
theorem c7_read_once_write_once (env : Env) (ms : List Sample) :
    (run env ms).count (Event.fileRead FileName.majorsFile) ≤ 1 ∧
    (run env ms).count (Event.fileRead FileName.mineralogyFile) ≤ 1 ∧
    (run env ms).count (Event.fileRead FileName.traceFile) ≤ 1 ∧
    (run env ms).count (Event.fileWrite FileName.pngFile) ≤ 1 ∧
    (run env ms).count (Event.fileWrite FileName.reportFile) ≤ 1 ∧
    (run env ms).count (Event.fileWrite FileName.majorsFile) = 0 ∧
    (run env ms).count (Event.fileWrite FileName.mineralogyFile) = 0 ∧
    (run env ms).count (Event.fileWrite FileName.traceFile) = 0 := by
  have h := run_shape env ms
  generalize hg : run env ms = t at h ⊢
  fin_cases h <;> decide

/-- C8: when the data load succeeds but no row has all six required oxide
columns non-null, the script exits with status 1 (the `exitNoSample` event)
before running or falling back, building the engine query, plotting, or
writing the report; and the selected sample is always the first complete
row of the majors table. -/
theorem c8_no_complete_sample (env : Env) (ms : List Sample) (h1 : env.loadFails = false) :
    (completeSamples ms = [] →
      Event.exitNoSample ∈ run env ms ∧
      Event.runOrFallback ∉ run env ms ∧
      Event.buildQuery ∉ run env ms ∧
      Event.fileWrite FileName.pngFile ∉ run env ms ∧
      Event.fileWrite FileName.reportFile ∉ run env ms) ∧
    selectedSample ms = ms.find? isComplete := by
  constructor
  · intro h2
    simp only [run, h1, Bool.false_eq_true, if_false, h2]
    decide
  · rw [selectedSample, completeSamples, filter_head_eq_find]

/-- C8 witness: a one-row table whose row is incomplete exits before any
simulation or output. -/
theorem c8_no_complete_sample_witness :
    Event.exitNoSample ∈ run envSynthetic [sampleIncomplete] ∧
      Event.runOrFallback ∉ run envSynthetic [sampleIncomplete] ∧
      Event.buildQuery ∉ run envSynthetic [sampleIncomplete] ∧
      Event.fileWrite FileName.pngFile ∉ run envSynthetic [sampleIncomplete] ∧
      Event.fileWrite FileName.reportFile ∉ run envSynthetic [sampleIncomplete] :=
  (c8_no_complete_sample envSynthetic [sampleIncomplete] rfl).1 (by decide)

/-- C9: for every sample, the synthetic fallback table has exactly 7 rows,
its pH column is exactly the strictly increasing sequence
5.6, 6.0, 6.4, 6.8, 7.2, 7.6, 8.0, and the step-5 analysis of the fallback
table reports a pH change of exactly +2.4, independent of the input data. -/
theorem c9_synthetic_ph_series (s : Sample) :
    (syntheticResults s).getCol "pH" = some (qcol [5.6, 6.0, 6.4, 6.8, 7.2, 7.6, 8.0]) ∧
    (syntheticResults s).nrows = 7 ∧
    (∀ c ∈ (syntheticResults s).cols, c.2.length = 7) ∧
    List.Chain' (fun a b : ℚ => a < b) (colVals (syntheticResults s) "pH") ∧
    ∃ a, step5 (syntheticResults s) = some a ∧ a.pH_change = some 2.4 := by
  refine ⟨rfl, rfl, ?_, ?_, ?_⟩
  · intro c hc
    simp only [syntheticResults, syntheticOf] at hc
    fin_cases hc <;> rfl
  · have h : colVals (syntheticResults s) "pH" = [5.6, 6.0, 6.4, 6.8, 7.2, 7.6, 8.0] := rfl
    rw [h]
    norm_num [List.chain'_cons, List.chain'_singleton]
  · refine ⟨_, step5_syntheticOf _ _ _ _, ?_⟩
    norm_num

/-- C9 witness: the pH column of a concrete fallback table has 7 rows. -/
theorem c9_synthetic_ph_series_witness :
    ("pH", qcol [5.6, 6.0, 6.4, 6.8, 7.2, 7.6, 8.0]).2.length = 7 :=
  (c9_synthetic_ph_series sampleCaA).2.2.1 _ (List.mem_cons_self _ _)

/-- C10: whenever the selected sample's CaO, MgO, Na2O and K2O values (after
defaulting) are non-negative, each cation column of the synthetic fallback
table is monotonically non-decreasing across the 7 reaction steps, and at
every step the Alk column equals HCO3- plus two times CO3-2 exactly. -/
theorem c10_cation_monotone_alkalinity (s : Sample)
    (hca : 0 ≤ fallbackOxide s.cao 5) (hmg : 0 ≤ fallbackOxide s.mgo 3)
    (hna : 0 ≤ fallbackOxide s.na2o 3) (hk : 0 ≤ fallbackOxide s.k2o 2) :
    List.Chain' (fun a b : ℚ => a ≤ b) (colVals (syntheticResults s) "Ca+2") ∧
    List.Chain' (fun a b : ℚ => a ≤ b) (colVals (syntheticResults s) "Mg+2") ∧
    List.Chain' (fun a b : ℚ => a ≤ b) (colVals (syntheticResults s) "Na+") ∧
    List.Chain' (fun a b : ℚ => a ≤ b) (colVals (syntheticResults s) "K+") ∧
    colVals (syntheticResults s) "Alk" =
      List.zipWith (fun h c => h + 2 * c) (colVals (syntheticResults s) "HCO3-")
        (colVals (syntheticResults s) "CO3-2") := by
  refine ⟨?_, ?_, ?_, ?_, ?_⟩
  · have h : colVals (syntheticResults s) "Ca+2" =
        (([0, 0.1, 0.25, 0.45, 0.7, 0.9, 1.0] : List ℚ).map
          (fun x => fallbackOxide s.cao 5 * 0.08 * x)).map (fun x => x / 1000) := rfl
    rw [h]
    refine chain_mul_div _ (mul_nonneg hca (by norm_num)) _ ?_
    norm_num [List.chain'_cons, List.chain'_singleton]
  · have h : colVals (syntheticResults s) "Mg+2" =
        (([0, 0.08, 0.2, 0.4, 0.65, 0.85, 1.0] : List ℚ).map
          (fun x => fallbackOxide s.mgo 3 * 0.06 * x)).map (fun x => x / 1000) := rfl
    rw [h]
    refine chain_mul_div _ (mul_nonneg hmg (by norm_num)) _ ?_
    norm_num [List.chain'_cons, List.chain'_singleton]
  · have h : colVals (syntheticResults s) "Na+" =
        (([0, 0.15, 0.35, 0.55, 0.75, 0.9, 1.0] : List ℚ).map
          (fun x => fallbackOxide s.na2o 3 * 0.05 * x)).map (fun x => x / 1000) := rfl
    rw [h]
    refine chain_mul_div _ (mul_nonneg hna (by norm_num)) _ ?_
    norm_num [List.chain'_cons, List.chain'_singleton]
  · have h : colVals (syntheticResults s) "K+" =
        (([0, 0.1, 0.3, 0.5, 0.7, 0.85, 1.0] : List ℚ).map
          (fun x => fallbackOxide s.k2o 2 * 0.03 * x)).map (fun x => x / 1000) := rfl
    rw [h]
    refine chain_mul_div _ (mul_nonneg hk (by norm_num)) _ ?_
    norm_num [List.chain'_cons, List.chain'_singleton]
  · have h1 : colVals (syntheticResults s) "Alk" =
        [(0.05 + 2 * 0) / 1000, (0.3 + 2 * 0.01) / 1000, (0.8 + 2 * 0.03) / 1000,
         (1.5 + 2 * 0.08) / 1000, (2.5 + 2 * 0.15) / 1000, (3.8 + 2 * 0.25) / 1000,
         (5.2 + 2 * 0.4) / 1000] := rfl
    have h2 : colVals (syntheticResults s) "HCO3-" =
        [0.05 / 1000, 0.3 / 1000, 0.8 / 1000, 1.5 / 1000, 2.5 / 1000, 3.8 / 1000,
         5.2 / 1000] := rfl
    have h3 : colVals (syntheticResults s) "CO3-2" =
        [(0 : ℚ) / 1000, 0.01 / 1000, 0.03 / 1000, 0.08 / 1000, 0.15 / 1000, 0.25 / 1000,
         0.4 / 1000] := rfl
    rw [h1, h2, h3]
    norm_num [List.zipWith]

/-- C10 witness at a concrete sample with positive oxide values. -/
theorem c10_cation_monotone_alkalinity_witness :
    List.Chain' (fun a b : ℚ => a ≤ b) (colVals (syntheticResults sampleCaA) "Ca+2") ∧
    List.Chain' (fun a b : ℚ => a ≤ b) (colVals (syntheticResults sampleCaA) "Mg+2") ∧
    List.Chain' (fun a b : ℚ => a ≤ b) (colVals (syntheticResults sampleCaA) "Na+") ∧
    List.Chain' (fun a b : ℚ => a ≤ b) (colVals (syntheticResults sampleCaA) "K+") ∧
    colVals (syntheticResults sampleCaA) "Alk" =
      List.zipWith (fun h c => h + 2 * c) (colVals (syntheticResults sampleCaA) "HCO3-")
        (colVals (syntheticResults sampleCaA) "CO3-2") :=
  c10_cation_monotone_alkalinity sampleCaA (by norm_num [fallbackOxide, sampleCaA])
    (by norm_num [fallbackOxide, sampleCaA]) (by norm_num [fallbackOxide, sampleCaA])
    (by norm_num [fallbackOxide, sampleCaA])
